import Mathlib

/-!
Shallow embedding of `ads/opctl/backend/ads_dataflow.py` (class `DataFlowBackend`).

The configuration dictionary is modelled as an association list of string keys
to Python-like values (`PyVal`).  Each backend operation is modelled as a pure
function from the configuration to an `OpResult`: the outcome (normal return,
returned ids, or raised exception), the ordered trace of provider (OCI Data
Flow) calls made, and the final state of the configuration dictionary (the
code mutates the nested `infrastructure` mapping in place).

External collaborators (`Job`, `DataFlow`, `DataFlowRuntime`, the OCI client)
are opaque: creating or submitting resources is recorded in the call trace,
and ids returned by the provider are supplied by a `Provider` parameter.
The standard-library helpers the code uses (`os.path.join`, `shlex.split`,
`json.loads`) are embedded below, faithful to CPython on the inputs the
backend feeds them.
-/

/-- A JSON value, as produced by `json.loads`.  Numbers keep their lexical
form; the backend never inspects the parsed structure, only stores it. -/
inductive JsonVal where
  | jNull : JsonVal
  | jBool : Bool → JsonVal
  | jNum : String → JsonVal
  | jStr : String → JsonVal
  | jArr : List JsonVal → JsonVal
  | jObj : List (String × JsonVal) → JsonVal
deriving Repr

/-- A Python value as it can appear in the configuration dictionary:
`None`, a bool, a string, or a parsed JSON value (written back into
`infrastructure["configuration"]` by `run`). -/
inductive PyVal where
  | vNone : PyVal
  | vBool : Bool → PyVal
  | vStr : String → PyVal
  | vJson : JsonVal → PyVal
deriving Repr

/-- Python truthiness of the values we model: `None` is falsy, a bool is
itself, a string is truthy iff non-empty, a parsed JSON value is truthy iff
it is not one of the falsy Python results of `json.loads`. -/
def PyVal.truthy : PyVal → Bool
  | .vNone => false
  | .vBool b => b
  | .vStr s => s ≠ ""
  | .vJson (.jNull) => false
  | .vJson (.jBool b) => b
  | .vJson (.jNum n) => n ≠ "0"
  | .vJson (.jStr s) => s ≠ ""
  | .vJson (.jArr l) => !l.isEmpty
  | .vJson (.jObj l) => !l.isEmpty

/-- Truthiness of `d.get(k)`-style results: a missing key behaves like
`None`. -/
def truthyOpt : Option PyVal → Bool
  | none => false
  | some v => v.truthy

/-- A Python dict with string keys, as an association list (keys unique in
all dictionaries the backend builds or receives). -/
abbrev Dict := List (String × PyVal)

/-- Dictionary lookup, `d.get(k)` / `k in d`. -/
def dget? : Dict → String → Option PyVal
  | [], _ => none
  | (k0, v) :: rest, k => if k0 = k then some v else dget? rest k

/-- Key membership, Python `k in d`. -/
def hasKey (d : Dict) (k : String) : Bool := (dget? d k).isSome

/-- Removal of a key, the state effect of Python `d.pop(k)`. -/
def derase : Dict → String → Dict
  | [], _ => []
  | (k0, v) :: rest, k => if k0 = k then derase rest k else (k0, v) :: derase rest k

/-- In-place update `d[k] = v` (replaces the existing entry, else appends). -/
def dset : Dict → String → PyVal → Dict
  | [], k, v => [(k, v)]
  | (k0, w) :: rest, k, v => if k0 = k then (k, v) :: rest else (k0, w) :: dset rest k v

/-- The configuration held by the adapter: the two top-level mappings the
backend reads (`config["execution"]` and `config.get("infrastructure", {})`;
a missing infrastructure mapping is the empty dictionary). -/
structure Config where
  execution : Dict
  infrastructure : Dict
deriving Repr

/-- The Python exceptions the module can raise on the modelled paths. -/
inductive PyError where
  | keyError : String → PyError
  | valueError : String → PyError
  | typeError : PyError
  | notImplementedError : String → PyError
  | unboundLocalError : String → PyError
  | jsonDecodeError : PyError
deriving Repr

/-- Result of an operation: a normal `None` return, the ids returned by
`run`, or a raised exception. -/
inductive Outcome where
  | ok : String → String → Outcome
  | unit : Outcome
  | err : PyError → Outcome
deriving Repr

/-- Whether an outcome is a raised `ValueError` (the "Validation-kind"
errors of the specification). -/
def isValidationOutcome : Outcome → Bool
  | .err (.valueError _) => true
  | _ => false

/-- The runtime descriptor spec built by `run` (`rt_spec`): keys are set
conditionally, so each optional key is an `Option`. -/
structure RtSpec where
  scriptPathURI : String
  scriptBucket : Option PyVal
  args : Option (List String)
  archiveUri : Option PyVal
  archiveBucket : Option PyVal
deriving Repr

/-- One call to the external provider (OCI Data Flow via the ads `Job` /
`DataFlowRun` collaborators). -/
inductive ProviderCall where
  | jobFromDataflow : PyVal → ProviderCall
  | submitRun : PyVal → ProviderCall
  | createJob : Dict → RtSpec → PyVal → ProviderCall
  | deleteJob : PyVal → ProviderCall
  | runFromOcid : PyVal → ProviderCall
  | deleteRun : PyVal → ProviderCall
  | watchRun : PyVal → ProviderCall
deriving Repr

/-- The ids the external provider hands back: the id of a freshly created
job, and the run id returned when a run is submitted against a job id. -/
structure Provider where
  newJobId : String
  submitRunId : PyVal → String

/-- Result of one backend operation: outcome, ordered provider-call trace,
and the final configuration (the `infrastructure` mapping may have been
mutated in place by `run`). -/
structure OpResult where
  outcome : Outcome
  calls : List ProviderCall
  final : Config
deriving Repr

/-- `REQUIRED_FIELDS` from the module. -/
def REQUIRED_FIELDS : List String :=
  ["compartment_id", "driver_shape", "executor_shape", "logs_bucket_uri", "script_bucket"]

/-- The required fields missing from the infrastructure mapping, in
`REQUIRED_FIELDS` order (`[k for k in REQUIRED_FIELDS if k not in infra]`). -/
def missingFields (infra : Dict) : List String :=
  REQUIRED_FIELDS.filter (fun k => !(hasKey infra k))

/-- Python `repr` of a list of strings, as an f-string interpolates it. -/
def pyListRepr (xs : List String) : String :=
  "[" ++ String.intercalate ", " (xs.map (fun s => "\x27" ++ s ++ "\x27")) ++ "]"

/-- The `ValueError` message raised by `run` for missing required fields. -/
def missingMsg (missing : List String) : String :=
  "Following fields are missing but are required for OCI DataFlow Jobs: "
    ++ pyListRepr missing ++ ". Please run `ads opctl configure`."

/-- Whether a string starts with the POSIX path separator. -/
def startsWithSlash (s : String) : Bool :=
  match s.data with
  | [] => false
  | c :: _ => c = '/'

/-- Whether a string ends with the POSIX path separator. -/
def endsWithSlash (s : String) : Bool :=
  match s.data.getLast? with
  | none => false
  | some c => c = '/'

/-- CPython `posixpath.join` on two string components, as `os.path.join`
behaves on the POSIX platform the backend targets. -/
def pathJoin (a b : String) : String :=
  if startsWithSlash b then b
  else if a = "" || endsWithSlash a then a ++ b
  else a ++ "/" ++ b

/-- Shell-like whitespace for `shlex` (`shlex.whitespace`). -/
def isShWs (c : Char) : Bool :=
  c = ' ' || c = '\t' || c = '\r' || c = '\n'

/-- The single-quote character. -/
def squote : Char := Char.ofNat 39

/-- Lexer state of `shlex.split` in POSIX mode: between tokens, inside a
token, inside single quotes, inside double quotes. -/
inductive ShMode where
  | out : ShMode
  | tok : ShMode
  | sq : ShMode
  | dq : ShMode

/-- Core loop of `shlex.split(s)` (POSIX rules, whitespace splitting):
returns `none` on a lexing error (unbalanced quote or trailing escape),
which `shlex` raises as a `ValueError`. -/
def shlexRun : List Char → ShMode → String → List String → Option (List String)
  | [], .out, _, acc => some acc.reverse
  | [], .tok, cur, acc => some ((cur :: acc)).reverse
  | [], .sq, _, _ => none
  | [], .dq, _, _ => none
  | c :: rest, .out, _, acc =>
    if isShWs c then shlexRun rest .out "" acc
    else if c = squote then shlexRun rest .sq "" acc
    else if c = '"' then shlexRun rest .dq "" acc
    else if c = '\\' then
      match rest with
      | [] => none
      | d :: rest2 => shlexRun rest2 .tok (String.singleton d) acc
    else shlexRun rest .tok (String.singleton c) acc
  | c :: rest, .tok, cur, acc =>
    if isShWs c then shlexRun rest .out "" (cur :: acc)
    else if c = squote then shlexRun rest .sq cur acc
    else if c = '"' then shlexRun rest .dq cur acc
    else if c = '\\' then
      match rest with
      | [] => none
      | d :: rest2 => shlexRun rest2 .tok (cur.push d) acc
    else shlexRun rest .tok (cur.push c) acc
  | c :: rest, .sq, cur, acc =>
    if c = squote then shlexRun rest .tok cur acc
    else shlexRun rest .sq (cur.push c) acc
  | c :: rest, .dq, cur, acc =>
    if c = '"' then shlexRun rest .tok cur acc
    else if c = '\\' then
      match rest with
      | [] => none
      | d :: rest2 =>
        if d = '"' || d = '\\' then shlexRun rest2 .dq (cur.push d) acc
        else shlexRun rest2 .dq ((cur.push '\\').push d) acc
    else shlexRun rest .dq (cur.push c) acc

/-- `shlex.split` in POSIX mode, as `run` uses it on
`execution["command"]`. -/
def shlexSplit (s : String) : Option (List String) :=
  shlexRun s.data .out "" []

/-- JSON whitespace skipped by Python `json.loads`. -/
def isJWs (c : Char) : Bool :=
  c = ' ' || c = '\t' || c = '\n' || c = '\r'

/-- Skip leading JSON whitespace. -/
def skipJWs : List Char → List Char
  | [] => []
  | c :: r => if isJWs c then skipJWs r else c :: r

/-- Consume an exact literal. -/
def dropLit : List Char → List Char → Option (List Char)
  | [], cs => some cs
  | l :: ls, c :: cs => if c = l then dropLit ls cs else none
  | _ :: _, [] => none

/-- Hexadecimal digit value. -/
def hexVal (c : Char) : Option Nat :=
  if '0' ≤ c && c ≤ '9' then some (c.toNat - 48)
  else if 'a' ≤ c && c ≤ 'f' then some (c.toNat - 87)
  else if 'A' ≤ c && c ≤ 'F' then some (c.toNat - 70)
  else none

/-- Body of a JSON string after the opening quote, per Python `json`:
escapes are the eight short escapes plus `\uXXXX`; unescaped control
characters are rejected. -/
def parseJStr : List Char → Option (String × List Char)
  | [] => none
  | c :: r =>
    if c = '"' then some ("", r)
    else if c = '\\' then
      match r with
      | [] => none
      | d :: r2 =>
        if d = 'u' then
          match r2 with
          | h1 :: h2 :: h3 :: h4 :: r3 =>
            match hexVal h1, hexVal h2, hexVal h3, hexVal h4 with
            | some a, some b, some e, some f =>
              match parseJStr r3 with
              | some (s, rest) =>
                some (String.singleton (Char.ofNat (((a * 16 + b) * 16 + e) * 16 + f)) ++ s, rest)
              | none => none
            | _, _, _, _ => none
          | _ => none
        else
          let esc : Option Char :=
            if d = '"' then some '"'
            else if d = '\\' then some '\\'
            else if d = '/' then some '/'
            else if d = 'b' then some (Char.ofNat 8)
            else if d = 'f' then some (Char.ofNat 12)
            else if d = 'n' then some '\n'
            else if d = 'r' then some '\r'
            else if d = 't' then some '\t'
            else none
          match esc with
          | none => none
          | some e =>
            match parseJStr r2 with
            | some (s, rest) => some (String.singleton e ++ s, rest)
            | none => none
    else if c.toNat < 32 then none
    else
      match parseJStr r with
      | some (s, rest) => some (String.singleton c ++ s, rest)
      | none => none

/-- Decimal digit test. -/
def isDig (c : Char) : Bool := '0' ≤ c && c ≤ '9'

/-- Take a maximal run of decimal digits. -/
def takeDigs : List Char → String × List Char
  | [] => ("", [])
  | c :: r =>
    if isDig c then
      let (s, rest) := takeDigs r
      (String.singleton c ++ s, rest)
    else ("", c :: r)

/-- Integer part of a JSON number: `0`, or a nonzero digit followed by
digits (Python `json` rejects other leading zeros). -/
def parseJInt : List Char → Option (String × List Char)
  | [] => none
  | c :: r =>
    if c = '0' then some ("0", r)
    else if isDig c then
      let (s, rest) := takeDigs r
      some (String.singleton c ++ s, rest)
    else none

/-- Lex a JSON number (Python `json` NUMBER_RE), keeping its lexical form. -/
def parseJNum (cs : List Char) : Option (String × List Char) :=
  let (sign, cs1) :=
    match cs with
    | '-' :: r => ("-", r)
    | _ => ("", cs)
  match parseJInt cs1 with
  | none => none
  | some (ip, cs2) =>
    let (frac, cs3) :=
      match cs2 with
      | '.' :: r =>
        match takeDigs r with
        | ("", _) => ("", cs2)
        | (ds, rest) => ("." ++ ds, rest)
      | _ => ("", cs2)
    let (ex, cs4) :=
      match cs3 with
      | e :: r =>
        if e = 'e' || e = 'E' then
          let (es, r2) :=
            match r with
            | '+' :: r3 => ("+", r3)
            | '-' :: r3 => ("-", r3)
            | _ => ("", r)
          match takeDigs r2 with
          | ("", _) => ("", cs3)
          | (ds, rest) => (String.singleton e ++ es ++ ds, rest)
        else ("", cs3)
      | [] => ("", cs3)
    some (sign ++ ip ++ frac ++ ex, cs4)

mutual

/-- Parse one JSON value (fuel-bounded recursive descent over the grammar
Python `json.loads` accepts, including the default `NaN`/`Infinity`
constants). -/
def parseJVal (fuel : Nat) (cs : List Char) : Option (JsonVal × List Char) :=
  match fuel with
  | 0 => none
  | fuel2 + 1 =>
    match skipJWs cs with
    | [] => none
    | c :: r =>
      if c = 'n' then (dropLit ['u', 'l', 'l'] r).map (fun rest => (.jNull, rest))
      else if c = 't' then (dropLit ['r', 'u', 'e'] r).map (fun rest => (.jBool true, rest))
      else if c = 'f' then (dropLit ['a', 'l', 's', 'e'] r).map (fun rest => (.jBool false, rest))
      else if c = 'N' then (dropLit ['a', 'N'] r).map (fun rest => (.jNum "NaN", rest))
      else if c = 'I' then
        (dropLit ['n', 'f', 'i', 'n', 'i', 't', 'y'] r).map (fun rest => (.jNum "Infinity", rest))
      else if c = '"' then (parseJStr r).map (fun p => (.jStr p.1, p.2))
      else if c = '[' then
        match skipJWs r with
        | ']' :: r2 => some (.jArr [], r2)
        | r2 => (parseJItems fuel2 r2).map (fun p => (.jArr p.1, p.2))
      else if c = '{' then
        match skipJWs r with
        | '}' :: r2 => some (.jObj [], r2)
        | r2 => (parseJMembers fuel2 r2).map (fun p => (.jObj p.1, p.2))
      else if c = '-' then
        match r with
        | 'I' :: r2 =>
          (dropLit ['n', 'f', 'i', 'n', 'i', 't', 'y'] r2).map
            (fun rest => (.jNum "-Infinity", rest))
        | _ => (parseJNum (c :: r)).map (fun p => (.jNum p.1, p.2))
      else if isDig c then (parseJNum (c :: r)).map (fun p => (.jNum p.1, p.2))
      else none

/-- Parse the comma-separated items of a non-empty JSON array, up to and
including the closing bracket. -/
def parseJItems (fuel : Nat) (cs : List Char) : Option (List JsonVal × List Char) :=
  match fuel with
  | 0 => none
  | fuel2 + 1 =>
    match parseJVal fuel2 cs with
    | none => none
    | some (v, cs1) =>
      match skipJWs cs1 with
      | ',' :: cs2 => (parseJItems fuel2 cs2).map (fun p => (v :: p.1, p.2))
      | ']' :: cs2 => some ([v], cs2)
      | _ => none

/-- Parse the members of a non-empty JSON object, up to and including the
closing brace. -/
def parseJMembers (fuel : Nat) (cs : List Char) :
    Option (List (String × JsonVal) × List Char) :=
  match fuel with
  | 0 => none
  | fuel2 + 1 =>
    match skipJWs cs with
    | '"' :: r =>
      match parseJStr r with
      | none => none
      | some (k, r2) =>
        match skipJWs r2 with
        | ':' :: r3 =>
          match parseJVal fuel2 r3 with
          | none => none
          | some (v, r4) =>
            match skipJWs r4 with
            | ',' :: r5 => (parseJMembers fuel2 r5).map (fun p => ((k, v) :: p.1, p.2))
            | '}' :: r5 => some ([(k, v)], r5)
            | _ => none
        | _ => none
    | _ => none

end

/-- Python `json.loads`: parse a complete JSON document, `none` meaning a
raised `json.JSONDecodeError`. -/
def jsonParse (s : String) : Option JsonVal :=
  match parseJVal (2 * s.length + 4) s.data with
  | some (v, rest) => if skipJWs rest = [] then some v else none
  | none => none

/-- The archive step of `run`: if `execution.get("archive")` is truthy, set
`archiveUri` and pop `archive_bucket` (default `None`) from the
infrastructure mapping into `archiveBucket`.  Returns the finished
`rt_spec` and the (possibly further mutated) infrastructure mapping. -/
def buildArchivePart (exec infra1 : Dict) (uri : String) (sb : Option PyVal)
    (args : Option (List String)) : Except PyError RtSpec × Dict :=
  let av := dget? exec "archive"
  if truthyOpt av then
    let infra2 := if hasKey infra1 "archive_bucket" then derase infra1 "archive_bucket" else infra1
    (.ok ⟨uri, sb, args, av, some ((dget? infra1 "archive_bucket").getD .vNone)⟩, infra2)
  else
    (.ok ⟨uri, sb, args, none, none⟩, infra1)

/-- The command step of `run`: if `execution.get("command")` is truthy,
split it with `shlex.split` into the `args` of `rt_spec`; a lexing failure
is the `ValueError` `shlex` raises. -/
def argsStep (cmdv : Option PyVal) : Except PyError (Option (List String)) :=
  if truthyOpt cmdv then
    match cmdv with
    | some (.vStr c) =>
      match shlexSplit c with
      | some toks => .ok (some toks)
      | none => .error (.valueError "No closing quotation")
    | _ => .error .typeError
  else .ok none

/-- Lines 139–150 of `run`: build `rt_spec` from the execution mapping,
mutating the infrastructure mapping in place (`infra.pop("script_bucket")`,
`infra.pop("archive_bucket", None)`).  Returns the raised exception or the
finished spec, together with the infrastructure mapping as the code leaves
it at that point. -/
def buildRtSpec (exec infra : Dict) : Except PyError RtSpec × Dict :=
  match dget? exec "source_folder" with
  | none => (.error (.keyError "source_folder"), infra)
  | some sfv =>
    match dget? exec "entrypoint" with
    | none => (.error (.keyError "entrypoint"), infra)
    | some epv =>
      match sfv, epv with
      | .vStr sf, .vStr ep =>
        let infra1 := if hasKey infra "script_bucket" then derase infra "script_bucket" else infra
        (match argsStep (dget? exec "command") with
          | .error err => (.error err, infra1)
          | .ok args =>
            buildArchivePart exec infra1 (pathJoin sf ep) (dget? infra "script_bucket") args)
      | _, _ => (.error .typeError, infra)

/-- Lines 152–153 of `run`: if `configuration` is present in the
infrastructure mapping, replace it by its `json.loads` value; a parse
failure propagates as `json.JSONDecodeError`. -/
def parseConfigStep (infra : Dict) : Except PyError Dict :=
  match dget? infra "configuration" with
  | none => .ok infra
  | some (.vStr s) =>
    match jsonParse s with
    | some j => .ok (dset infra "configuration" (.vJson j))
    | none => .error .jsonDecodeError
  | some _ => .error .typeError

/-- `DataFlowBackend.run`.  With a truthy `execution.ocid` the code looks
the job up and submits a run, but the local `job_id` is only assigned on
the other branch, so the final `print("DataFlow App ID:", job_id)` raises
`UnboundLocalError` after the run has been submitted.  Without an ocid it
validates `REQUIRED_FIELDS`, builds the runtime spec (mutating the
infrastructure mapping), parses `configuration`, creates the job and
submits a run, printing and returning both ids. -/
def runModel (p : Provider) (cfg : Config) : OpResult :=
  let ov := dget? cfg.execution "ocid"
  if truthyOpt ov then
    let dfid := ov.getD .vNone
    ⟨.err (.unboundLocalError "job_id"), [.jobFromDataflow dfid, .submitRun dfid], cfg⟩
  else
    if missingFields cfg.infrastructure = [] then
      match buildRtSpec cfg.execution cfg.infrastructure with
      | (.error e, infra1) => ⟨.err e, [], ⟨cfg.execution, infra1⟩⟩
      | (.ok rt, infra1) =>
        match parseConfigStep infra1 with
        | .error e => ⟨.err e, [], ⟨cfg.execution, infra1⟩⟩
        | .ok infra2 =>
          let ow := (dget? cfg.execution "overwrite").getD (.vBool false)
          ⟨.ok p.newJobId (p.submitRunId (.vStr p.newJobId)),
            [.createJob infra2 rt ow, .submitRun (.vStr p.newJobId)],
            ⟨cfg.execution, infra2⟩⟩
    else
      ⟨.err (.valueError (missingMsg (missingFields cfg.infrastructure))), [], cfg⟩

/-- `DataFlowBackend.apply`: unconditionally raises `NotImplementedError`. -/
def applyModel (cfg : Config) : OpResult :=
  ⟨.err (.notImplementedError "`apply` hasn\x27t been supported for data flow yet."), [], cfg⟩

/-- `DataFlowBackend.cancel`: raises `ValueError` unless
`execution.get("run_id")` is truthy, else looks the run up and deletes it. -/
def cancelModel (cfg : Config) : OpResult :=
  let rv := dget? cfg.execution "run_id"
  if truthyOpt rv then
    let rid := rv.getD .vNone
    ⟨.unit, [.runFromOcid rid, .deleteRun rid], cfg⟩
  else
    ⟨.err (.valueError "Can only cancel a DataFlow run."), [], cfg⟩

/-- `DataFlowBackend.delete`: deletes the job when `execution.get("id")` is
truthy, else the run when `execution.get("run_id")` is truthy, else does
nothing. -/
def deleteModel (cfg : Config) : OpResult :=
  let idv := dget? cfg.execution "id"
  if truthyOpt idv then
    let jid := idv.getD .vNone
    ⟨.unit, [.jobFromDataflow jid, .deleteJob jid], cfg⟩
  else
    let rv := dget? cfg.execution "run_id"
    if truthyOpt rv then
      let rid := rv.getD .vNone
      ⟨.unit, [.runFromOcid rid, .deleteRun rid], cfg⟩
    else
      ⟨.unit, [], cfg⟩

/-- `DataFlowBackend.watch`: indexes `execution["run_id"]` directly (a
`KeyError` when absent), then looks the run up and watches it. -/
def watchModel (cfg : Config) : OpResult :=
  match dget? cfg.execution "run_id" with
  | none => ⟨.err (.keyError "run_id"), [], cfg⟩
  | some rv => ⟨.unit, [.runFromOcid rv, .watchRun rv], cfg⟩

/-- The template data `init` assembles from the configuration: the
infrastructure mapping unpacked into the `DataFlow` template
(`self.config.get("infrastructure", {}) or {}`, a falsy mapping replaced by
an empty one) and the requested runtime type.  Serialization of the
template is performed by the external `Job.to_yaml` collaborator and is
not modelled; `init` never writes to the configuration. -/
def initModel (cfg : Config) (runtimeType : Option String) : (Dict × Option String) × Config :=
  ((if cfg.infrastructure.isEmpty then [] else cfg.infrastructure, runtimeType), cfg)

/-- Whether an `Except` value is a success. -/
def exOk : Except PyError RtSpec → Bool
  | .ok _ => true
  | .error _ => false

/-- A fixed provider environment for concrete evaluations. -/
def sampleProvider : Provider :=
  ⟨"ocid1.dataflowapplication.oc1.phx.new", fun _ => "ocid1.dataflowrun.oc1.phx.new"⟩

/-- A configuration with `execution.ocid` set. -/
def cfgOcid : Config :=
  ⟨[("ocid", .vStr "ocid1.dataflowapplication.oc1.phx.abc")], [("driver_shape", .vStr "d")]⟩

/-- A configuration whose infrastructure mapping lacks `logs_bucket_uri`
and `script_bucket`. -/
def cfgMissingTwo : Config :=
  ⟨[], [("compartment_id", .vStr "c"), ("driver_shape", .vStr "d"),
        ("executor_shape", .vStr "e")]⟩

/-- A configuration whose execution mapping has no `run_id`. -/
def cfgNoRunId : Config := ⟨[("auth", .vStr "api_key")], []⟩

/-- A configuration that passes validation and reaches job creation. -/
def cfgMut : Config :=
  ⟨[("source_folder", .vStr "/home/user/proj"), ("entrypoint", .vStr "main.py")],
   [("compartment_id", .vStr "c1"), ("driver_shape", .vStr "VM.Standard2.1"),
    ("executor_shape", .vStr "VM.Standard2.1"), ("logs_bucket_uri", .vStr "oci://logs@ns"),
    ("script_bucket", .vStr "oci://scripts@ns")]⟩

/-- The configuration of the specification example for the runtime spec. -/
def cfgExample : Config :=
  ⟨[("source_folder", .vStr "/a"), ("entrypoint", .vStr "job.py"),
    ("command", .vStr "--x 1")],
   [("compartment_id", .vStr "c1"), ("driver_shape", .vStr "d"),
    ("executor_shape", .vStr "e"), ("logs_bucket_uri", .vStr "b"),
    ("script_bucket", .vStr "sb")]⟩

/-- An execution mapping with only an ocid, and two infrastructure
mappings it can be paired with. -/
def execOcidOnly : Dict := [("ocid", .vStr "ocid1.dataflowapplication.oc1.phx.j")]

/-- An empty infrastructure mapping. -/
def infraEmpty : Dict := []

/-- A nonempty infrastructure mapping. -/
def infraSome : Dict := [("compartment_id", .vStr "other"), ("driver_shape", .vStr "x")]

/-- A configuration with `execution.id` set for `delete`. -/
def cfgDelJob : Config := ⟨[("id", .vStr "ocid1.dataflowapplication.oc1.phx.d")], []⟩

/-- A configuration with only `execution.run_id` set for `delete`. -/
def cfgDelRun : Config := ⟨[("run_id", .vStr "ocid1.dataflowrun.oc1.phx.d")], []⟩

/-- A configuration where both `execution.id` and `execution.run_id` are
present but falsy. -/
def cfgDelNone : Config := ⟨[("id", .vStr ""), ("run_id", .vNone)], []⟩

/-- A complete infrastructure mapping (all `REQUIRED_FIELDS`). -/
def infraFull : Dict :=
  [("compartment_id", .vStr "c"), ("driver_shape", .vStr "d"), ("executor_shape", .vStr "e"),
   ("logs_bucket_uri", .vStr "b"), ("script_bucket", .vStr "sb")]

/-- Valid infrastructure but no `source_folder` in the execution mapping. -/
def cfgNoSourceFolder : Config := ⟨[("entrypoint", .vStr "main.py")], infraFull⟩

/-- Valid infrastructure, `source_folder` present, no `entrypoint`. -/
def cfgNoEntrypoint : Config := ⟨[("source_folder", .vStr "/a")], infraFull⟩

/-- A configuration whose `infrastructure.configuration` is not valid
JSON (an unterminated object), with an archive set. -/
def cfgBadJson : Config :=
  ⟨[("source_folder", .vStr "/a"), ("entrypoint", .vStr "m.py"), ("archive", .vStr "arc.zip")],
   [("compartment_id", .vStr "c"), ("driver_shape", .vStr "d"), ("executor_shape", .vStr "e"),
    ("logs_bucket_uri", .vStr "b"), ("script_bucket", .vStr "sb"),
    ("archive_bucket", .vStr "ab"), ("configuration", .vStr "\x7b")]⟩

theorem truthyOpt_none : truthyOpt none = false := rfl

theorem truthyOpt_some (v : PyVal) : truthyOpt (some v) = v.truthy := rfl

theorem dget_derase_self (d : Dict) (k : String) : dget? (derase d k) k = none := by
  induction d with
  | nil => rfl
  | cons hd tl ih =>
    obtain ⟨k0, v⟩ := hd
    by_cases h : k0 = k
    · simp [derase, h, ih]
    · simp [derase, dget?, h, ih]

theorem hasKey_derase_self (d : Dict) (k : String) : hasKey (derase d k) k = false := by
  simp [hasKey, dget_derase_self]

theorem dget_derase_ne (d : Dict) (k0 k : String) (h : k ≠ k0) :
    dget? (derase d k0) k = dget? d k := by
  induction d with
  | nil => rfl
  | cons hd tl ih =>
    obtain ⟨k1, v⟩ := hd
    by_cases h1 : k1 = k0
    · simp [derase, dget?, h1, Ne.symm h, ih]
    · by_cases h2 : k1 = k
      · simp [derase, dget?, h, h1, h2]
      · simp [derase, dget?, h1, h2, ih]

theorem hasKey_derase_ne (d : Dict) (k0 k : String) (h : k ≠ k0) :
    hasKey (derase d k0) k = hasKey d k := by
  simp [hasKey, dget_derase_ne d k0 k h]

theorem dget_dset_ne (d : Dict) (k0 k : String) (v : PyVal) (h : k ≠ k0) :
    dget? (dset d k0 v) k = dget? d k := by
  induction d with
  | nil => simp [dset, dget?, Ne.symm h]
  | cons hd tl ih =>
    obtain ⟨k1, w⟩ := hd
    by_cases h1 : k1 = k0
    · simp [dset, dget?, h1, Ne.symm h]
    · by_cases h2 : k1 = k
      · simp [dset, dget?, h, h1, h2]
      · simp [dset, dget?, h1, h2, ih]

theorem missingFields_has (i : Dict) (k : String) (hk : k ∈ REQUIRED_FIELDS)
    (h : missingFields i = []) : hasKey i k = true := by
  by_contra hc
  have hc2 : hasKey i k = false := by
    cases hval : hasKey i k
    · rfl
    · exact absurd hval hc
  have hk2 : k ∈ missingFields i := by
    apply List.mem_filter.mpr
    exact ⟨hk, by simp [hc2]⟩
  rw [h] at hk2
  exact absurd hk2 (List.not_mem_nil k)

theorem buildArchivePart_snd_get (e i1 : Dict) (uri : String) (sb : Option PyVal)
    (args : Option (List String)) (k : String) (hk : k ≠ "archive_bucket") :
    dget? (buildArchivePart e i1 uri sb args).2 k = dget? i1 k := by
  simp only [buildArchivePart]
  split
  · split
    · exact dget_derase_ne i1 "archive_bucket" k hk
    · rfl
  · rfl

theorem buildArchivePart_no_ab (e i1 : Dict) (uri : String) (sb : Option PyVal)
    (args : Option (List String)) (ha : truthyOpt (dget? e "archive") = true) :
    hasKey (buildArchivePart e i1 uri sb args).2 "archive_bucket" = false := by
  simp only [buildArchivePart, ha, if_true]
  split
  · exact hasKey_derase_self i1 "archive_bucket"
  · rename_i hnk
    cases hval : hasKey i1 "archive_bucket"
    · rfl
    · exact absurd hval hnk

theorem buildRtSpec_shape (e i : Dict) :
    (exOk (buildRtSpec e i).1 = false ∧
      ((buildRtSpec e i).2 = i ∨
        (buildRtSpec e i).2 = (if hasKey i "script_bucket" then derase i "script_bucket" else i)))
    ∨ (∃ uri sb args, buildRtSpec e i
        = buildArchivePart e (if hasKey i "script_bucket" then derase i "script_bucket" else i)
            uri sb args) := by
  unfold buildRtSpec
  rcases dget? e "source_folder" with _ | sfv
  · exact Or.inl ⟨rfl, Or.inl rfl⟩
  rcases dget? e "entrypoint" with _ | epv
  · exact Or.inl ⟨rfl, Or.inl rfl⟩
  cases sfv <;> cases epv <;> try exact Or.inl ⟨rfl, Or.inl rfl⟩
  rename_i sf ep
  rcases argsStep (dget? e "command") with err | args
  · exact Or.inl ⟨rfl, Or.inr rfl⟩
  · exact Or.inr ⟨pathJoin sf ep, dget? i "script_bucket", args, rfl⟩

theorem buildRtSpec_snd_get (e i : Dict) (k : String)
    (h1 : k ≠ "script_bucket") (h2 : k ≠ "archive_bucket") :
    dget? (buildRtSpec e i).2 k = dget? i k := by
  have hif : dget? (if hasKey i "script_bucket" then derase i "script_bucket" else i) k
      = dget? i k := by
    split
    · exact dget_derase_ne i "script_bucket" k h1
    · rfl
  rcases buildRtSpec_shape e i with ⟨_, hsnd | hsnd⟩ | ⟨uri, sb, args, heq⟩
  · rw [hsnd]
  · rw [hsnd]; exact hif
  · rw [heq, buildArchivePart_snd_get _ _ _ _ _ _ h2]
    exact hif

theorem buildRtSpec_ok_no_sb (e i : Dict) (hsb : hasKey i "script_bucket" = true)
    (hok : exOk (buildRtSpec e i).1 = true) :
    hasKey (buildRtSpec e i).2 "script_bucket" = false := by
  rcases buildRtSpec_shape e i with ⟨hno, _⟩ | ⟨uri, sb, args, heq⟩
  · rw [hok] at hno; cases hno
  · rw [heq]
    generalize hD : (if hasKey i "script_bucket" then derase i "script_bucket" else i) = D
    have h2 := buildArchivePart_snd_get e D uri sb args "script_bucket" (by decide)
    have h3 : dget? D "script_bucket" = none := by
      rw [← hD, if_pos hsb]
      exact dget_derase_self i "script_bucket"
    unfold hasKey
    rw [h2, h3]
    rfl

theorem buildRtSpec_ok_no_ab (e i : Dict) (ha : truthyOpt (dget? e "archive") = true)
    (hok : exOk (buildRtSpec e i).1 = true) :
    hasKey (buildRtSpec e i).2 "archive_bucket" = false := by
  rcases buildRtSpec_shape e i with ⟨hno, _⟩ | ⟨uri, sb, args, heq⟩
  · rw [hok] at hno; cases hno
  · rw [heq]
    exact buildArchivePart_no_ab _ _ _ _ _ ha

theorem parseConfigStep_get_ne (i i2 : Dict) (k : String) (hk : k ≠ "configuration")
    (h : parseConfigStep i = .ok i2) : dget? i2 k = dget? i k := by
  unfold parseConfigStep at h
  split at h
  · cases h; rfl
  · split at h
    · cases h
      exact dget_dset_ne i "configuration" k _ hk
    · cases h
  · cases h

/-- C1: the claim says both paths of `run()` print the Job id and Run id
and return them as the mapping \x7bjob_id, run_id\x7d.  On the path taken when
`execution.ocid` is set, the code submits the run but `job_id` is never
assigned, so the closing `print("DataFlow App ID:", job_id)` raises
`UnboundLocalError` and nothing is printed or returned: the code
contradicts its own unconditional `return` of both ids. -/
theorem run_ocid_path_unbound_job_id :
    runModel sampleProvider cfgOcid =
      ⟨.err (.unboundLocalError "job_id"),
        [.jobFromDataflow (.vStr "ocid1.dataflowapplication.oc1.phx.abc"),
         .submitRun (.vStr "ocid1.dataflowapplication.oc1.phx.abc")], cfgOcid⟩ := rfl

/-- C2: without `execution.ocid`, when any required infrastructure field is
missing, `run` raises a `ValueError` whose message interpolates exactly the
list of missing `REQUIRED_FIELDS`, makes no provider call, and leaves the
configuration unchanged. -/
theorem run_missing_fields_validation (p : Provider) (cfg : Config)
    (hocid : dget? cfg.execution "ocid" = none)
    (hmiss : missingFields cfg.infrastructure ≠ []) :
    runModel p cfg =
      ⟨.err (.valueError (missingMsg (missingFields cfg.infrastructure))), [], cfg⟩ := by
  simp only [runModel, hocid]
  rw [if_neg (by simp [truthyOpt]), if_neg hmiss]

/-- Witness for C2 at a configuration missing `logs_bucket_uri` and
`script_bucket`. -/
theorem run_missing_fields_validation_witness :
    runModel sampleProvider cfgMissingTwo =
      ⟨.err (.valueError (missingMsg ["logs_bucket_uri", "script_bucket"])), [],
        cfgMissingTwo⟩ :=
  run_missing_fields_validation sampleProvider cfgMissingTwo rfl (by decide)

/-- C3 counterexample: with `execution.run_id` absent, `watch` raises a
`KeyError` (a key-lookup error), not a Validation-kind (`ValueError`)
error, so the claim that both `cancel` and `watch` fail with a
Validation-kind error is false. -/
theorem watch_missing_run_id_not_validation :
    (watchModel cfgNoRunId).outcome = .err (.keyError "run_id") ∧
    isValidationOutcome (watchModel cfgNoRunId).outcome = false ∧
    (watchModel cfgNoRunId).calls = [] := ⟨rfl, rfl, rfl⟩

/-- C3 as amended: when `execution.run_id` is absent, `cancel` fails with a
Validation-kind error and `watch` fails with a key-lookup error, and in
both cases no provider call is made. -/
theorem cancel_watch_missing_run_id (cfg : Config)
    (h : dget? cfg.execution "run_id" = none) :
    cancelModel cfg = ⟨.err (.valueError "Can only cancel a DataFlow run."), [], cfg⟩ ∧
    watchModel cfg = ⟨.err (.keyError "run_id"), [], cfg⟩ := by
  constructor
  · simp [cancelModel, h, truthyOpt]
  · simp [watchModel, h]

/-- Witness for the amended C3. -/
theorem cancel_watch_missing_run_id_witness :
    cancelModel cfgNoRunId =
      ⟨.err (.valueError "Can only cancel a DataFlow run."), [], cfgNoRunId⟩ ∧
    watchModel cfgNoRunId = ⟨.err (.keyError "run_id"), [], cfgNoRunId⟩ :=
  cancel_watch_missing_run_id cfgNoRunId rfl

/-- C5: on the specification example configuration, `run` creates the job
with the runtime spec exactly
scriptPathURI "/a/job.py", scriptBucket "sb", args ["--x", "1"]
(and no archive keys), against the infrastructure mapping from which
`script_bucket` has been popped. -/
theorem run_builds_exact_rt_spec :
    (runModel sampleProvider cfgExample).calls =
      [.createJob
          [("compartment_id", .vStr "c1"), ("driver_shape", .vStr "d"),
           ("executor_shape", .vStr "e"), ("logs_bucket_uri", .vStr "b")]
          ⟨"/a/job.py", some (.vStr "sb"), some ["--x", "1"], none, none⟩
          (.vBool false),
        .submitRun (.vStr "ocid1.dataflowapplication.oc1.phx.new")] := rfl

/-- C6: when `execution.ocid` is truthy, `run` behaves identically for any
two infrastructure mappings paired with the same execution mapping: same
outcome, same provider calls, namely the lookup-and-submit trace, and the
configuration is left unchanged in both cases. -/
theorem run_ocid_independent_of_infra (p : Provider) (e i1 i2 : Dict)
    (h : truthyOpt (dget? e "ocid") = true) :
    (runModel p ⟨e, i1⟩).outcome = (runModel p ⟨e, i2⟩).outcome ∧
    (runModel p ⟨e, i1⟩).calls = (runModel p ⟨e, i2⟩).calls ∧
    (runModel p ⟨e, i1⟩).calls =
      [.jobFromDataflow ((dget? e "ocid").getD .vNone),
       .submitRun ((dget? e "ocid").getD .vNone)] ∧
    (runModel p ⟨e, i1⟩).final = ⟨e, i1⟩ ∧
    (runModel p ⟨e, i2⟩).final = ⟨e, i2⟩ := by
  simp [runModel, h]

/-- Witness for C6 at two configurations differing in infrastructure. -/
theorem run_ocid_independent_of_infra_witness :
    (runModel sampleProvider ⟨execOcidOnly, infraEmpty⟩).outcome
      = (runModel sampleProvider ⟨execOcidOnly, infraSome⟩).outcome ∧
    (runModel sampleProvider ⟨execOcidOnly, infraEmpty⟩).calls
      = (runModel sampleProvider ⟨execOcidOnly, infraSome⟩).calls ∧
    (runModel sampleProvider ⟨execOcidOnly, infraEmpty⟩).calls =
      [.jobFromDataflow ((dget? execOcidOnly "ocid").getD .vNone),
       .submitRun ((dget? execOcidOnly "ocid").getD .vNone)] ∧
    (runModel sampleProvider ⟨execOcidOnly, infraEmpty⟩).final = ⟨execOcidOnly, infraEmpty⟩ ∧
    (runModel sampleProvider ⟨execOcidOnly, infraSome⟩).final = ⟨execOcidOnly, infraSome⟩ :=
  run_ocid_independent_of_infra sampleProvider execOcidOnly infraEmpty infraSome rfl

/-- C7: `delete` deletes the job when `execution.id` is truthy, deletes the
run when `execution.id` is falsy or absent and `execution.run_id` is
truthy, and with both absent or falsy makes no provider call and returns
normally. -/
theorem delete_dispatch (cfg : Config) :
    (truthyOpt (dget? cfg.execution "id") = false →
      truthyOpt (dget? cfg.execution "run_id") = false →
      deleteModel cfg = ⟨.unit, [], cfg⟩) ∧
    (∀ v, dget? cfg.execution "id" = some v → v.truthy = true →
      deleteModel cfg = ⟨.unit, [.jobFromDataflow v, .deleteJob v], cfg⟩) ∧
    (truthyOpt (dget? cfg.execution "id") = false →
      ∀ v, dget? cfg.execution "run_id" = some v → v.truthy = true →
      deleteModel cfg = ⟨.unit, [.runFromOcid v, .deleteRun v], cfg⟩) := by
  refine ⟨fun h1 h2 => ?_, fun v hv ht => ?_, fun h1 v hv ht => ?_⟩
  · simp [deleteModel, h1, h2]
  · simp [deleteModel, hv, truthyOpt_some, ht]
  · simp [deleteModel, h1, hv, truthyOpt_some, ht]

/-- Witness for C7 at its three cases: job id set, only run id set, both
present but falsy. -/
theorem delete_dispatch_witness :
    deleteModel cfgDelNone = ⟨.unit, [], cfgDelNone⟩ ∧
    deleteModel cfgDelJob =
      ⟨.unit, [.jobFromDataflow (.vStr "ocid1.dataflowapplication.oc1.phx.d"),
        .deleteJob (.vStr "ocid1.dataflowapplication.oc1.phx.d")], cfgDelJob⟩ ∧
    deleteModel cfgDelRun =
      ⟨.unit, [.runFromOcid (.vStr "ocid1.dataflowrun.oc1.phx.d"),
        .deleteRun (.vStr "ocid1.dataflowrun.oc1.phx.d")], cfgDelRun⟩ :=
  ⟨(delete_dispatch cfgDelNone).1 rfl rfl,
   (delete_dispatch cfgDelJob).2.1 (.vStr "ocid1.dataflowapplication.oc1.phx.d") rfl rfl,
   (delete_dispatch cfgDelRun).2.2 rfl (.vStr "ocid1.dataflowrun.oc1.phx.d") rfl rfl⟩

/-- C8: `apply` raises `NotImplementedError` for every configuration,
making no provider call and leaving the configuration unchanged. -/
theorem apply_always_not_implemented (cfg : Config) :
    applyModel cfg =
      ⟨.err (.notImplementedError "`apply` hasn\x27t been supported for data flow yet."),
        [], cfg⟩ := rfl

/-- C9: without `execution.ocid`, when the infrastructure validation passes
but `source_folder` (or, with `source_folder` present, `entrypoint`) is
missing from the execution mapping, `run` raises a `KeyError` on that key —
a key-lookup error, not a Validation-kind error — before any provider
call. -/
theorem run_missing_entry_key_error (p : Provider) (cfg : Config)
    (hocid : dget? cfg.execution "ocid" = none)
    (hmiss : missingFields cfg.infrastructure = []) :
    (dget? cfg.execution "source_folder" = none →
      runModel p cfg = ⟨.err (.keyError "source_folder"), [], cfg⟩) ∧
    (∀ v, dget? cfg.execution "source_folder" = some v →
      dget? cfg.execution "entrypoint" = none →
      runModel p cfg = ⟨.err (.keyError "entrypoint"), [], cfg⟩) := by
  constructor
  · intro hsf
    simp only [runModel, hocid]
    rw [if_neg (by simp [truthyOpt]), if_pos hmiss]
    simp only [buildRtSpec, hsf]
  · intro v hsf hep
    simp only [runModel, hocid]
    rw [if_neg (by simp [truthyOpt]), if_pos hmiss]
    simp only [buildRtSpec, hsf, hep]

/-- Witness for C9 at its two cases. -/
theorem run_missing_entry_key_error_witness :
    runModel sampleProvider cfgNoSourceFolder =
      ⟨.err (.keyError "source_folder"), [], cfgNoSourceFolder⟩ ∧
    runModel sampleProvider cfgNoEntrypoint =
      ⟨.err (.keyError "entrypoint"), [], cfgNoEntrypoint⟩ :=
  ⟨(run_missing_entry_key_error sampleProvider cfgNoSourceFolder rfl (by decide)).1 rfl,
   (run_missing_entry_key_error sampleProvider cfgNoEntrypoint rfl (by decide)).2
      (.vStr "/a") rfl rfl⟩

/-- C10: without `execution.ocid`, past validation and the runtime-spec
build, when `infrastructure.configuration` is present but is not valid
JSON, the parse error propagates with the infrastructure mapping already
mutated: `script_bucket` is gone, and `archive_bucket` is gone whenever
`archive` is set, so the adapter state is not left unchanged on this
error.  No provider call is made. -/
theorem run_bad_json_after_mutation (p : Provider) (cfg : Config) (rt : RtSpec)
    (infra1 : Dict) (s : String)
    (hocid : dget? cfg.execution "ocid" = none)
    (hmiss : missingFields cfg.infrastructure = [])
    (hbr : buildRtSpec cfg.execution cfg.infrastructure = (Except.ok rt, infra1))
    (hconf : dget? cfg.infrastructure "configuration" = some (.vStr s))
    (hbad : jsonParse s = none) :
    runModel p cfg = ⟨.err .jsonDecodeError, [], ⟨cfg.execution, infra1⟩⟩ ∧
    hasKey infra1 "script_bucket" = false ∧
    (truthyOpt (dget? cfg.execution "archive") = true →
      hasKey infra1 "archive_bucket" = false) := by
  have hok : exOk (buildRtSpec cfg.execution cfg.infrastructure).1 = true := by
    rw [hbr]; rfl
  have hconf1 : dget? infra1 "configuration" = some (.vStr s) := by
    have h := buildRtSpec_snd_get cfg.execution cfg.infrastructure "configuration"
      (by decide) (by decide)
    rw [hbr] at h
    simp only at h
    rw [h, hconf]
  have hpc : parseConfigStep infra1 = .error .jsonDecodeError := by
    simp [parseConfigStep, hconf1, hbad]
  refine ⟨?_, ?_, ?_⟩
  · simp only [runModel, hocid]
    rw [if_neg (by simp [truthyOpt]), if_pos hmiss, hbr]
    simp only [hpc]
  · have h := buildRtSpec_ok_no_sb cfg.execution cfg.infrastructure
      (missingFields_has cfg.infrastructure "script_bucket" (by decide) hmiss) hok
    rw [hbr] at h
    simpa using h
  · intro ha
    have h := buildRtSpec_ok_no_ab cfg.execution cfg.infrastructure ha hok
    rw [hbr] at h
    simpa using h

/-- Witness for C10: an unterminated JSON object in `configuration`, with
an archive set; both `script_bucket` and `archive_bucket` are already
removed when the parse error is raised. -/
theorem run_bad_json_after_mutation_witness :
    runModel sampleProvider cfgBadJson =
      ⟨.err .jsonDecodeError, [],
        ⟨cfgBadJson.execution,
          [("compartment_id", .vStr "c"), ("driver_shape", .vStr "d"),
           ("executor_shape", .vStr "e"), ("logs_bucket_uri", .vStr "b"),
           ("configuration", .vStr "\x7b")]⟩⟩ ∧
    hasKey [("compartment_id", .vStr "c"), ("driver_shape", .vStr "d"),
           ("executor_shape", .vStr "e"), ("logs_bucket_uri", .vStr "b"),
           ("configuration", .vStr "\x7b")] "script_bucket" = false ∧
    (truthyOpt (dget? cfgBadJson.execution "archive") = true →
      hasKey [("compartment_id", .vStr "c"), ("driver_shape", .vStr "d"),
           ("executor_shape", .vStr "e"), ("logs_bucket_uri", .vStr "b"),
           ("configuration", .vStr "\x7b")] "archive_bucket" = false) :=
  run_bad_json_after_mutation sampleProvider cfgBadJson
    ⟨"/a/m.py", some (.vStr "sb"), none, some (.vStr "arc.zip"), some (.vStr "ab")⟩
    [("compartment_id", .vStr "c"), ("driver_shape", .vStr "d"),
     ("executor_shape", .vStr "e"), ("logs_bucket_uri", .vStr "b"),
     ("configuration", .vStr "\x7b")]
    "\x7b" rfl rfl rfl rfl rfl

/-- C4 counterexample: the configuration is not immutable — on a valid
configuration, `run` removes `script_bucket` from the nested
infrastructure mapping, so the final configuration differs from the
initial one. -/
theorem run_mutates_infrastructure :
    hasKey cfgMut.infrastructure "script_bucket" = true ∧
    hasKey (runModel sampleProvider cfgMut).final.infrastructure "script_bucket" = false :=
  ⟨rfl, rfl⟩

/-- C4 as amended: `init`, `apply`, `cancel`, `delete` and `watch` leave
the configuration unchanged; `run` leaves the execution mapping unchanged,
and leaves the whole configuration unchanged when `execution.ocid` is set
or the required-fields validation fails; but past validation `run` mutates
the nested infrastructure mapping in place: `script_bucket` is removed,
and `archive_bucket` is removed whenever `archive` is set. -/
theorem config_mutation_characterization (p : Provider) (cfg : Config)
    (rtype : Option String) :
    (initModel cfg rtype).2 = cfg ∧
    (applyModel cfg).final = cfg ∧
    (cancelModel cfg).final = cfg ∧
    (deleteModel cfg).final = cfg ∧
    (watchModel cfg).final = cfg ∧
    (runModel p cfg).final.execution = cfg.execution ∧
    (truthyOpt (dget? cfg.execution "ocid") = true → (runModel p cfg).final = cfg) ∧
    (truthyOpt (dget? cfg.execution "ocid") = false →
      missingFields cfg.infrastructure ≠ [] → (runModel p cfg).final = cfg) ∧
    (truthyOpt (dget? cfg.execution "ocid") = false →
      missingFields cfg.infrastructure = [] →
      exOk (buildRtSpec cfg.execution cfg.infrastructure).1 = true →
      (hasKey (runModel p cfg).final.infrastructure "script_bucket" = false ∧
        (truthyOpt (dget? cfg.execution "archive") = true →
          hasKey (runModel p cfg).final.infrastructure "archive_bucket" = false))) := by
  refine ⟨rfl, rfl, ?_, ?_, ?_, ?_, ?_, ?_, ?_⟩
  · simp only [cancelModel]
    split <;> rfl
  · simp only [deleteModel]
    split
    · rfl
    · split <;> rfl
  · simp only [watchModel]
    split <;> rfl
  · simp only [runModel]
    split
    · rfl
    · split
      · split
        · rfl
        · split <;> rfl
      · rfl
  · intro h1
    simp [runModel, h1]
  · intro h1 h2
    simp only [runModel]
    rw [if_neg (by simp [h1]), if_neg h2]
  · intro h1 h2 hok
    rcases hbr : buildRtSpec cfg.execution cfg.infrastructure with ⟨res, infra1⟩
    cases res with
    | error e =>
      rw [hbr] at hok
      exact absurd hok (by simp [exOk])
    | ok rt =>
      have hnos := buildRtSpec_ok_no_sb cfg.execution cfg.infrastructure
        (missingFields_has cfg.infrastructure "script_bucket" (by decide) h2) hok
      rw [hbr] at hnos
      simp only at hnos
      have hfin : dget? (runModel p cfg).final.infrastructure "script_bucket"
          = dget? infra1 "script_bucket" ∧
          dget? (runModel p cfg).final.infrastructure "archive_bucket"
          = dget? infra1 "archive_bucket" := by
        simp only [runModel]
        rw [if_neg (by simp [h1]), if_pos h2, hbr]
        cases hpc : parseConfigStep infra1 with
        | error e => simp [hpc]
        | ok infra2 =>
          simp only [hpc]
          exact ⟨parseConfigStep_get_ne infra1 infra2 "script_bucket" (by decide) hpc,
                 parseConfigStep_get_ne infra1 infra2 "archive_bucket" (by decide) hpc⟩
      constructor
      · show (dget? (runModel p cfg).final.infrastructure "script_bucket").isSome = false
        rw [hfin.1]
        exact hnos
      · intro ha
        have hnoa := buildRtSpec_ok_no_ab cfg.execution cfg.infrastructure ha hok
        rw [hbr] at hnoa
        simp only at hnoa
        show (dget? (runModel p cfg).final.infrastructure "archive_bucket").isSome = false
        rw [hfin.2]
        exact hnoa

/-- Witness for the amended C4: `cancel` leaves a configuration unchanged,
`run` with an ocid leaves it unchanged, and `run` on a valid configuration
removes `script_bucket` from the infrastructure mapping. -/
theorem config_mutation_characterization_witness :
    (cancelModel cfgMut).final = cfgMut ∧
    (runModel sampleProvider cfgOcid).final = cfgOcid ∧
    hasKey (runModel sampleProvider cfgMut).final.infrastructure "script_bucket" = false :=
  ⟨(config_mutation_characterization sampleProvider cfgMut none).2.2.1,
   (config_mutation_characterization sampleProvider cfgOcid none).2.2.2.2.2.2.1 rfl,
   ((config_mutation_characterization sampleProvider cfgMut none).2.2.2.2.2.2.2.2
      rfl rfl rfl).1⟩
